import Mathlib

/-!
Shallow embedding of src/src/error.rs of USBMaker: the four stage error
enums (PartitioningError, FormatError, MountError, IsoError), the
error_code resolver of each (trait USBMakerError), and the Display
rendering (fmt) of each.

Modelling conventions:
- std io Error is modelled by its Display text, a String (only its
  rendered message is observable in this module).
- i32 exit-status payloads are modelled as Int; Rust renders an i32 with
  the decimal formatting that Int.toString also produces.
- write with a template "text: {}" on payload e is modelled as the string
  "text: " ++ e.
-/

/-- Model of std io Error: only its rendered message is observable here. -/
abbrev IoError := String

/-- enum PartitioningError of src/src/error.rs. -/
inductive PartitioningError where
  | CanceledByUser
  | CommitError (e : IoError)
  | ConstraintError
  | DeviceOpenError (e : IoError)
  | DiskOpenError (e : IoError)
  | PartitionAddError (e : IoError)
  | PartitionCreateError (e : IoError)
  | UnknownTableType (s : String)
deriving DecidableEq

/-- enum MountError of src/src/error.rs. -/
inductive MountError where
  | CommandExecError (e : IoError)
  | CommandFailed (status : Option Int)
  | TempdirCreationError (e : IoError)
deriving DecidableEq

/-- enum FormatError of src/src/error.rs. -/
inductive FormatError where
  | CanceledByUser
  | CommandExecError (e : IoError)
  | CommandFailed (status : Option Int)
  | PartitioningError (e : PartitioningError)
  | UnknownFilesystemType (s : String)
  | WipefsExecError (e : IoError)
  | WipefsFailed (status : Option Int)
deriving DecidableEq

/-- enum IsoError of src/src/error.rs. -/
inductive IsoError where
  | CanceledByUser
  | CopyError (e : IoError)
  | FormatError (e : FormatError)
  | MountError (e : MountError)
  | PartitioningError (e : PartitioningError)
deriving DecidableEq

/-- impl USBMakerError for PartitioningError, fn error_code. -/
def PartitioningError.error_code : PartitioningError → Int
  | .CanceledByUser => 1
  | .CommitError _ => 8
  | .ConstraintError => 9
  | .DeviceOpenError _ => 10
  | .DiskOpenError _ => 11
  | .PartitionAddError _ => 12
  | .PartitionCreateError _ => 13
  | .UnknownTableType _ => 14

/-- impl USBMakerError for MountError, fn error_code. -/
def MountError.error_code : MountError → Int
  | .CommandExecError _ => 1
  | .CommandFailed _ => 1
  | .TempdirCreationError _ => 17

/-- impl USBMakerError for FormatError, fn error_code. -/
def FormatError.error_code : FormatError → Int
  | .CanceledByUser => 1
  | .CommandExecError _ => 15
  | .CommandFailed _ => 16
  | .PartitioningError err => err.error_code
  | .UnknownFilesystemType _ => 17
  | .WipefsExecError _ => 18
  | .WipefsFailed _ => 19

/-- impl USBMakerError for IsoError, fn error_code. -/
def IsoError.error_code : IsoError → Int
  | .CanceledByUser => 1
  | .CopyError _ => 1
  | .FormatError err => err.error_code
  | .PartitioningError err => err.error_code
  | .MountError err => err.error_code

/-- impl fmt Display for PartitioningError, fn fmt. -/
def PartitioningError.fmt : PartitioningError → String
  | .CanceledByUser => "The operation was canceled by the user"
  | .CommitError e => "Failed to commit changes to disk: " ++ e
  | .ConstraintError => "Failed to get the constraint"
  | .DeviceOpenError e => "Failed open the target device: " ++ e
  | .DiskOpenError e => "Failed open the partition table: " ++ e
  | .PartitionAddError e => "Failed to add partition to partition table: " ++ e
  | .PartitionCreateError e => "Failed create partition in memory: " ++ e
  | .UnknownTableType s => "Unknown partition table type: " ++ s

/-- impl fmt Display for MountError, fn fmt. -/
def MountError.fmt : MountError → String
  | .CommandExecError e => "Failed to execute command: " ++ e
  | .CommandFailed status =>
      match status with
      | some code => "Mount command exited with code: " ++ toString code
      | none => "Mount command terminated by signal"
  | .TempdirCreationError e => "Failed to create temporary directory: " ++ e

/-- impl fmt Display for FormatError, fn fmt. -/
def FormatError.fmt : FormatError → String
  | .CanceledByUser => "The operation was canceled by the user"
  | .CommandExecError e => "Failed to execute command: " ++ e
  | .CommandFailed status =>
      match status with
      | some code => "Command exited with code: " ++ toString code
      | none => "Command terminated by signal"
  | .PartitioningError e => e.fmt
  | .UnknownFilesystemType s => "Unknown filesystem type: " ++ s
  | .WipefsExecError e => "Failed to execute wipefs: " ++ e
  | .WipefsFailed status =>
      match status with
      | some code => "Wipefs exited with code: " ++ toString code
      | none => "Wipefs terminated by signal"

/-- impl fmt Display for IsoError, fn fmt. -/
def IsoError.fmt : IsoError → String
  | .CanceledByUser => "The operation was canceled by the user"
  | .CopyError e => "Failed to copy files: " ++ e
  | .FormatError e => e.fmt
  | .MountError e => e.fmt
  | .PartitioningError e => e.fmt

/-- Constructor index of a PartitioningError value, used to state that two
values are built from distinct variants. -/
def PartitioningError.ctorIdx : PartitioningError → Nat
  | .CanceledByUser => 0
  | .CommitError _ => 1
  | .ConstraintError => 2
  | .DeviceOpenError _ => 3
  | .DiskOpenError _ => 4
  | .PartitionAddError _ => 5
  | .PartitionCreateError _ => 6
  | .UnknownTableType _ => 7

/-- Constructor index of a FormatError value. -/
def FormatError.ctorIdx : FormatError → Nat
  | .CanceledByUser => 0
  | .CommandExecError _ => 1
  | .CommandFailed _ => 2
  | .PartitioningError _ => 3
  | .UnknownFilesystemType _ => 4
  | .WipefsExecError _ => 5
  | .WipefsFailed _ => 6

/-- A FormatError variant is a leaf when it does not wrap a lower-stage
error value. -/
def FormatError.isLeaf : FormatError → Bool
  | .PartitioningError _ => false
  | _ => true

/-- Two strings whose first n characters differ are different strings. -/
theorem take_ne_imp_ne (s t : String) (n : Nat)
    (h : s.data.take n ≠ t.data.take n) : s ≠ t :=
  fun he => h (by rw [he])

/-- The exited-with-code rendering of a format command failure never equals
the terminated-by-signal rendering, whatever the interpolated text. -/
theorem command_some_ne (u : String) :
    ("Command exited with code: " ++ u) ≠ "Command terminated by signal" := by
  apply take_ne_imp_ne _ _ 9
  have h : ("Command exited with code: " ++ u).data.take 9 = "Command e".data := rfl
  rw [h]
  decide

/-- The exited-with-code rendering of a wipefs failure never equals the
terminated-by-signal rendering, whatever the interpolated text. -/
theorem wipefs_some_ne (u : String) :
    ("Wipefs exited with code: " ++ u) ≠ "Wipefs terminated by signal" := by
  apply take_ne_imp_ne _ _ 8
  have h : ("Wipefs exited with code: " ++ u).data.take 8 = "Wipefs e".data := rfl
  rw [h]
  decide

/-- The exited-with-code rendering of a mount command failure never equals
the terminated-by-signal rendering, whatever the interpolated text. -/
theorem mount_some_ne (u : String) :
    ("Mount command exited with code: " ++ u)
      ≠ "Mount command terminated by signal" := by
  apply take_ne_imp_ne _ _ 15
  have h : ("Mount command exited with code: " ++ u).data.take 15
      = "Mount command e".data := rfl
  rw [h]
  decide

/-- The rendering of a mount command-exec failure is never the
canceled-by-user sentence, whatever the interpolated text. -/
theorem exec_ne_canceled (u : String) :
    ("Failed to execute command: " ++ u)
      ≠ "The operation was canceled by the user" := by
  apply take_ne_imp_ne _ _ 1
  have h : ("Failed to execute command: " ++ u).data.take 1 = ['F'] := rfl
  rw [h]
  decide

/-- The rendering of a temp-dir creation failure is never the
canceled-by-user sentence, whatever the interpolated text. -/
theorem tempdir_ne_canceled (u : String) :
    ("Failed to create temporary directory: " ++ u)
      ≠ "The operation was canceled by the user" := by
  apply take_ne_imp_ne _ _ 1
  have h : ("Failed to create temporary directory: " ++ u).data.take 1 = ['F'] := rfl
  rw [h]
  decide

/-- A string starting with the letter M is never the canceled-by-user
sentence. -/
theorem m_prefixed_ne_canceled (u : String) :
    ("Mount command exited with code: " ++ u)
      ≠ "The operation was canceled by the user" := by
  apply take_ne_imp_ne _ _ 1
  have h : ("Mount command exited with code: " ++ u).data.take 1 = ['M'] := rfl
  rw [h]
  decide

/-- No MountError value renders the canceled-by-user sentence: MountError
defines no cancellation variant and no payload can smuggle the sentence in. -/
theorem mount_no_canceled_render :
    ∀ m : MountError, m.fmt ≠ "The operation was canceled by the user" := by
  intro m
  cases m with
  | CommandExecError e => exact exec_ne_canceled e
  | CommandFailed status =>
      cases status with
      | none => decide
      | some n => exact m_prefixed_ne_canceled (toString n)
  | TempdirCreationError e => exact tempdir_ne_canceled e

/-- Claim C1: every leaf variant of every stage error kind resolves, through
error_code, to its fixed constant from the table, independently of the
payload it carries. -/
theorem c1_leaf_exit_codes :
    PartitioningError.CanceledByUser.error_code = 1
    ∧ (∀ e, (PartitioningError.CommitError e).error_code = 8)
    ∧ PartitioningError.ConstraintError.error_code = 9
    ∧ (∀ e, (PartitioningError.DeviceOpenError e).error_code = 10)
    ∧ (∀ e, (PartitioningError.DiskOpenError e).error_code = 11)
    ∧ (∀ e, (PartitioningError.PartitionAddError e).error_code = 12)
    ∧ (∀ e, (PartitioningError.PartitionCreateError e).error_code = 13)
    ∧ (∀ s, (PartitioningError.UnknownTableType s).error_code = 14)
    ∧ FormatError.CanceledByUser.error_code = 1
    ∧ (∀ e, (FormatError.CommandExecError e).error_code = 15)
    ∧ (∀ st, (FormatError.CommandFailed st).error_code = 16)
    ∧ (∀ s, (FormatError.UnknownFilesystemType s).error_code = 17)
    ∧ (∀ e, (FormatError.WipefsExecError e).error_code = 18)
    ∧ (∀ st, (FormatError.WipefsFailed st).error_code = 19)
    ∧ (∀ e, (MountError.CommandExecError e).error_code = 1)
    ∧ (∀ st, (MountError.CommandFailed st).error_code = 1)
    ∧ (∀ e, (MountError.TempdirCreationError e).error_code = 17)
    ∧ IsoError.CanceledByUser.error_code = 1
    ∧ (∀ e, (IsoError.CopyError e).error_code = 1) :=
  ⟨rfl, fun _ => rfl, rfl, fun _ => rfl, fun _ => rfl, fun _ => rfl,
   fun _ => rfl, fun _ => rfl, rfl, fun _ => rfl, fun _ => rfl, fun _ => rfl,
   fun _ => rfl, fun _ => rfl, fun _ => rfl, fun _ => rfl, fun _ => rfl,
   rfl, fun _ => rfl⟩

/-- Claim C2: every wrapping variant delegates error_code to the wrapped
value, for all inner values, and delegation composes through the depth-3
chain IsoError to FormatError to PartitioningError. -/
theorem c2_exit_code_delegation :
    (∀ p : PartitioningError,
      (FormatError.PartitioningError p).error_code = p.error_code)
    ∧ (∀ f : FormatError, (IsoError.FormatError f).error_code = f.error_code)
    ∧ (∀ m : MountError, (IsoError.MountError m).error_code = m.error_code)
    ∧ (∀ p : PartitioningError,
      (IsoError.PartitioningError p).error_code = p.error_code)
    ∧ (∀ p : PartitioningError,
      (IsoError.FormatError (FormatError.PartitioningError p)).error_code
        = p.error_code) :=
  ⟨fun _ => rfl, fun _ => rfl, fun _ => rfl, fun _ => rfl, fun _ => rfl⟩

/-- Claim C3: every wrapping variant renders exactly the rendered message of
the wrapped value, for all inner values; wrapping adds no prefix or suffix. -/
theorem c3_render_transparency :
    (∀ p : PartitioningError, (FormatError.PartitioningError p).fmt = p.fmt)
    ∧ (∀ f : FormatError, (IsoError.FormatError f).fmt = f.fmt)
    ∧ (∀ m : MountError, (IsoError.MountError m).fmt = m.fmt)
    ∧ (∀ p : PartitioningError, (IsoError.PartitioningError p).fmt = p.fmt) :=
  ⟨fun _ => rfl, fun _ => rfl, fun _ => rfl, fun _ => rfl⟩

/-- Claim C4, counterexample: the rendered cancellation message carries no
trailing period, so it is not the sentence claimed (which ends in a
period). -/
theorem c4_counterexample :
    PartitioningError.CanceledByUser.fmt
      ≠ "The operation was canceled by the user." := by decide

/-- Claim C4, amended: every canceled-by-user variant resolves to exit code
1 and renders exactly the sentence without a trailing period. -/
theorem c4_canceled_code_and_text :
    PartitioningError.CanceledByUser.error_code = 1
    ∧ FormatError.CanceledByUser.error_code = 1
    ∧ IsoError.CanceledByUser.error_code = 1
    ∧ PartitioningError.CanceledByUser.fmt
        = "The operation was canceled by the user"
    ∧ FormatError.CanceledByUser.fmt = "The operation was canceled by the user"
    ∧ IsoError.CanceledByUser.fmt = "The operation was canceled by the user" :=
  ⟨rfl, rfl, rfl, rfl, rfl, rfl⟩

/-- Claim C5: the depth-3 chain wrapping an unknown-table-type value for
the name gpt2 resolves to exit code 14 and renders the exact text. -/
theorem c5_gpt2_scenario :
    (IsoError.FormatError (FormatError.PartitioningError
      (PartitioningError.UnknownTableType "gpt2"))).error_code = 14
    ∧ (IsoError.FormatError (FormatError.PartitioningError
      (PartitioningError.UnknownTableType "gpt2"))).fmt
        = "Unknown partition table type: gpt2" :=
  ⟨rfl, rfl⟩

/-- Claim C6: each command-failure variant renders an exited-with-code
template interpolating the status when present, a fixed
terminated-by-signal sentence when absent, and the two renderings differ
for every status value. -/
theorem c6_command_failure_rendering :
    (∀ n : Int, (FormatError.CommandFailed (some n)).fmt
      = "Command exited with code: " ++ toString n)
    ∧ (FormatError.CommandFailed none).fmt = "Command terminated by signal"
    ∧ (∀ n : Int, (FormatError.CommandFailed (some n)).fmt
      ≠ (FormatError.CommandFailed none).fmt)
    ∧ (∀ n : Int, (FormatError.WipefsFailed (some n)).fmt
      = "Wipefs exited with code: " ++ toString n)
    ∧ (FormatError.WipefsFailed none).fmt = "Wipefs terminated by signal"
    ∧ (∀ n : Int, (FormatError.WipefsFailed (some n)).fmt
      ≠ (FormatError.WipefsFailed none).fmt)
    ∧ (∀ n : Int, (MountError.CommandFailed (some n)).fmt
      = "Mount command exited with code: " ++ toString n)
    ∧ (MountError.CommandFailed none).fmt = "Mount command terminated by signal"
    ∧ (∀ n : Int, (MountError.CommandFailed (some n)).fmt
      ≠ (MountError.CommandFailed none).fmt) :=
  ⟨fun _ => rfl, rfl, fun n => command_some_ne (toString n),
   fun _ => rfl, rfl, fun n => wipefs_some_ne (toString n),
   fun _ => rfl, rfl, fun n => mount_some_ne (toString n)⟩

/-- Claim C7, counterexample: MountError defines no canceled-by-user
variant; no MountError value renders the cancellation sentence. -/
theorem c7_counterexample :
    ¬ ∃ m : MountError, m.fmt = "The operation was canceled by the user" :=
  fun ⟨m, h⟩ => mount_no_canceled_render m h

/-- Claim C7, amended: Partitioning, Formatting and Image-writing each
define a canceled-by-user variant resolving to exit code 1, but Mounting
defines none. -/
theorem c7_canceled_variants :
    PartitioningError.CanceledByUser.error_code = 1
    ∧ FormatError.CanceledByUser.error_code = 1
    ∧ IsoError.CanceledByUser.error_code = 1
    ∧ ¬ ∃ m : MountError, m.fmt = "The operation was canceled by the user" :=
  ⟨rfl, rfl, rfl, fun ⟨m, h⟩ => mount_no_canceled_render m h⟩

/-- Claim C8, counterexample: the leaf-to-code map is not injective across
stage kinds: the two pairs the claim cites as distinguishable collide
(unknown filesystem type and temp-dir creation both give 17; a mount
command failure and canceled-by-user both give 1). -/
theorem c8_counterexample :
    (FormatError.UnknownFilesystemType "ext9").error_code = 17
    ∧ (MountError.TempdirCreationError "permission denied").error_code = 17
    ∧ (MountError.CommandFailed (some 32)).error_code = 1
    ∧ PartitioningError.CanceledByUser.error_code = 1 :=
  ⟨rfl, rfl, rfl, rfl⟩

/-- Claim C8, amended: distinct variants resolve to distinct codes within
PartitioningError, and within the non-wrapping variants of FormatError;
across stages codes collide (17 is shared by unknown filesystem type and
temp-dir creation failure; 1 is shared by canceled-by-user, both mount
command failures, and copy failure). -/
theorem c8_injectivity_within_stage :
    (∀ p q : PartitioningError,
      p.error_code = q.error_code → p.ctorIdx = q.ctorIdx)
    ∧ (∀ x y : FormatError, x.isLeaf = true → y.isLeaf = true →
      x.error_code = y.error_code → x.ctorIdx = y.ctorIdx)
    ∧ (FormatError.UnknownFilesystemType "vfat").error_code
        = (MountError.TempdirCreationError "io").error_code
    ∧ (MountError.CommandExecError "io").error_code
        = FormatError.CanceledByUser.error_code
    ∧ (MountError.CommandFailed none).error_code
        = FormatError.CanceledByUser.error_code
    ∧ (IsoError.CopyError "io").error_code = 1 := by
  refine ⟨?_, ?_, rfl, rfl, rfl, rfl⟩
  · intro p q h
    cases p <;> cases q <;>
      simp_all [PartitioningError.error_code, PartitioningError.ctorIdx]
  · intro x y hx hy h
    cases x <;> cases y <;>
      simp_all [FormatError.error_code, FormatError.ctorIdx, FormatError.isLeaf]

/-- Witness for the amended claim C8 at concrete inputs. -/
theorem c8_injectivity_within_stage_witness :
    (PartitioningError.CommitError "a").ctorIdx
      = (PartitioningError.CommitError "b").ctorIdx
    ∧ (FormatError.WipefsFailed none).ctorIdx
      = (FormatError.WipefsFailed (some 3)).ctorIdx :=
  ⟨c8_injectivity_within_stage.1 (PartitioningError.CommitError "a")
    (PartitioningError.CommitError "b") rfl,
   c8_injectivity_within_stage.2.1 (FormatError.WipefsFailed none)
    (FormatError.WipefsFailed (some 3)) rfl rfl rfl⟩

/-- Claim C9: every error value of every stage kind, wrapped chains
included, resolves to an exit code between 1 and 19, never 0. -/
theorem c9_exit_code_range :
    (∀ p : PartitioningError, 1 ≤ p.error_code ∧ p.error_code ≤ 19)
    ∧ (∀ m : MountError, 1 ≤ m.error_code ∧ m.error_code ≤ 19)
    ∧ (∀ f : FormatError, 1 ≤ f.error_code ∧ f.error_code ≤ 19)
    ∧ (∀ i : IsoError, 1 ≤ i.error_code ∧ i.error_code ≤ 19) := by
  have hp : ∀ p : PartitioningError, 1 ≤ p.error_code ∧ p.error_code ≤ 19 := by
    intro p; cases p <;> simp [PartitioningError.error_code]
  have hm : ∀ m : MountError, 1 ≤ m.error_code ∧ m.error_code ≤ 19 := by
    intro m; cases m <;> simp [MountError.error_code]
  have hf : ∀ f : FormatError, 1 ≤ f.error_code ∧ f.error_code ≤ 19 := by
    intro f
    cases f with
    | PartitioningError p => exact hp p
    | _ => simp [FormatError.error_code]
  refine ⟨hp, hm, hf, ?_⟩
  intro i
  cases i with
  | FormatError f => exact hf f
  | MountError m => exact hm m
  | PartitioningError p => exact hp p
  | _ => simp [IsoError.error_code]

/-- Claim C10: the direct and the indirect embedding of a PartitioningError
into an IsoError agree on exit code and rendered message, for every value. -/
theorem c10_two_embeddings_agree :
    ∀ p : PartitioningError,
      (IsoError.PartitioningError p).error_code
        = (IsoError.FormatError (FormatError.PartitioningError p)).error_code
      ∧ (IsoError.PartitioningError p).fmt
        = (IsoError.FormatError (FormatError.PartitioningError p)).fmt :=
  fun _ => ⟨rfl, rfl⟩
